import Mathlib

/-!
Verification of the external-identity login flow of the discord-clone
backend (Go): the JWT middleware (`internal/middleware/auth.go`), the OAuth
callback handler and JWT issuer (`internal/handlers/auth.go`), and the user
storage layer (`internal/models`, `CreateOAuthUser` / `GetUserByGoogleID`).

Modelling conventions:
* Machine integers (Go `int`, Unix seconds) are `Int`.
* Go strings are Lean `String`; Go `len(s)` (bytes) is `goByteLen`,
  `strings.TrimPrefix` is `goTrimPrefix` (both defined below on the
  UTF-8 character data; the prefix involved, "Bearer ", is ASCII).
* The HMAC signature of a JWT is modelled symbolically (ideal MAC): a
  signature is the triple (algorithm, key, signed claims), and signature
  verification recomputes and compares, exactly as the jwt/v5 library does
  with a real HMAC.
* The serialized (compact) form of a JWT is abstracted by a decoding
  function `decode : String → Option SignedToken` passed to the middleware,
  standing for the parsing phase of `jwt.ParseWithClaims`.
* `nil`-able values (`*string`, absent cookies/query parameters) are
  `Option`.  `r.URL.Query().Get(k)` returns "" for an absent parameter,
  modelled by `Option.getD q ""`.
* Go code that panics (and therefore never reaches the wrapped handler)
  is modelled by an explicit `panicked` result constructor.
-/

namespace DiscordClone

/-! ## Data model: `internal/models` `User` (part_003)

`created_at` / `updated_at` are set by database defaults and never read by
this subsystem; they are omitted from the embedding. -/

structure User where
  id : Int
  username : String
  email : String
  password_hash : Option String
  google_id : Option String
  provider : String
  avatar_url : Option String
  status : String
deriving DecidableEq, Repr

/-! ## JWT claims

`generateJWT` (handlers/auth.go) builds `jwt.MapClaims` with keys
`user_id`, `email`, `username`, `exp`, `iat`; the middleware decodes them
into `UserClaims{UserID, Email, Username, jwt.RegisteredClaims}`.  Both
views carry the same five fields. -/

structure UserClaims where
  user_id : Int
  email : String
  username : String
  exp : Int
  iat : Int
deriving DecidableEq, Repr

/-- JWT signing algorithms relevant to the middleware's method check:
the three members of the HMAC family (`*jwt.SigningMethodHMAC`) and
representatives of the non-HMAC methods the key function refuses. -/
inductive Alg
  | HS256
  | HS384
  | HS512
  | RS256
  | none_alg
deriving DecidableEq, Repr

/-- The middleware's key function accepts a token iff its method is a
`*jwt.SigningMethodHMAC` (middleware/auth.go line 109). -/
def Alg.isHMAC : Alg → Bool
  | .HS256 => true
  | .HS384 => true
  | .HS512 => true
  | .RS256 => false
  | .none_alg => false

/-- Symbolic MAC value: an ideal MAC over the signing input, which for a
JWT determines the algorithm (header) and the claims (payload), keyed by
the secret. -/
structure MacSig where
  alg : Alg
  key : String
  payload : UserClaims
deriving DecidableEq, Repr

/-- A parsed JWT: header algorithm, claim set, and attached signature. -/
structure SignedToken where
  alg : Alg
  claims : UserClaims
  sig : MacSig
deriving DecidableEq, Repr

/-- `jwt.NewWithClaims(method, claims).SignedString(secret)`:
attaches the MAC of the signing input under `secret`. -/
def signToken (alg : Alg) (secret : String) (claims : UserClaims) : SignedToken :=
  { alg := alg, claims := claims, sig := { alg := alg, key := secret, payload := claims } }

/-- `generateJWT` (handlers/auth.go lines 315-333): claims
`{user_id, email, username, exp = now + 24h, iat = now}` signed with HS256
under the handler's secret.  (`SignedString` of an HMAC method over
marshallable claims does not fail; the handler's error branch is modelled
where it is observed, in the callback, by `OAuthEnv.signingFails`.) -/
def generateJWT (secret : String) (user : User) (now : Int) : SignedToken :=
  signToken Alg.HS256 secret
    { user_id := user.id, email := user.email, username := user.username
      exp := now + 24 * 3600, iat := now }

/-- Token validation performed by `jwt.ParseWithClaims` with the
middleware's key function (middleware/auth.go lines 107-114), on an
already-parsed token:
1. the key function rejects any non-HMAC signing method;
2. the library verifies the HMAC signature against the returned secret;
3. the default jwt/v5 validator rejects a token whose `exp` is not
   strictly in the future (`iat` is not checked by default in jwt/v5).
Returns the decoded claims on success, `none` on any failure. -/
def verifyToken (secret : String) (now : Int) (tok : SignedToken) : Option UserClaims :=
  if tok.alg.isHMAC = false then none
  else if tok.sig ≠ { alg := tok.alg, key := secret, payload := tok.claims : MacSig } then none
  else if tok.claims.exp ≤ now then none
  else some tok.claims

/-! ## Go string helpers (byte length and TrimPrefix) -/

/-- Go `len(s)`: the UTF-8 byte length of the string. -/
def goByteLen (s : String) : Nat :=
  (s.data.map Char.utf8Size).sum

/-- Go `strings.TrimPrefix(s, p)`: drops `p` from the front of `s` when it
is a prefix, otherwise returns `s` unchanged.  (Byte-level and
character-level prefixing agree here because UTF-8 is self-synchronizing
and the only prefix used, "Bearer ", is ASCII.) -/
def goTrimPrefix (s p : String) : String :=
  if p.data = s.data.take p.data.length then String.mk (s.data.drop p.data.length) else s

/-! ## JWT middleware (`JWTMiddleware`, middleware/auth.go lines 81-135) -/

/-- Observable outcome of the middleware for one request:
either the wrapped handler (`next`) is invoked exactly once, carrying the
identity attached to the request context (`none` = anonymous), or the
middleware goroutine panics before reaching `next` and the request fails
without the handler ever running. -/
inductive MWResult
  | panicked
  | passed (identity : Option UserClaims)
deriving DecidableEq, Repr

/-- `JWTMiddleware` on one request.  `authHeader` is
`r.Header.Get("Authorization")` ("" when the header is absent);
`decode` is the string-parsing phase of `jwt.ParseWithClaims`;
`secret` is `os.Getenv("JWT_SECRET")`; `now` the verification time.

Line-by-line from the source:
* line 85: empty header → `next` runs with no user context;
* line 94: debug log `authHeader[:20]+"..."` — Go slicing panics when the
  (non-empty) header is shorter than 20 bytes;
* lines 98-104: `TrimPrefix "Bearer "`; unchanged string (no prefix) →
  `next` runs with no user context;
* lines 107-121: parse + verify; any failure → `next` runs anonymously;
* lines 124-133: valid token → `next` runs with the claims attached
  (the claims cast always succeeds since parsing used `&UserClaims{}`). -/
def JWTMiddleware (decode : String → Option SignedToken) (secret : String)
    (now : Int) (authHeader : String) : MWResult :=
  if authHeader = "" then .passed none
  else if goByteLen authHeader < 20 then .panicked
  else
    if goTrimPrefix authHeader "Bearer " = authHeader then .passed none
    else
      match decode (goTrimPrefix authHeader "Bearer ") with
      | none => .passed none
      | some tok =>
        match verifyToken secret now tok with
        | none => .passed none
        | some claims => .passed (some claims)

/-! ## Storage layer: `internal/models` (part_003) over an in-memory store

The `users` table (init-db scripts) has unique constraints on `username`,
`email` and `google_id`; `id` is a serial primary key. -/

/-- Next serial id for the in-memory `users` table. -/
def nextId (db : List User) : Int :=
  db.foldl (fun m u => max m u.id) 0 + 1

/-- `GetUserByGoogleID` (part_003 lines 29-45):
`SELECT ... FROM users WHERE google_id = $1`; `none` models
`sql.ErrNoRows`. -/
def GetUserByGoogleID (db : List User) (googleID : String) : Option User :=
  db.find? (fun u => u.google_id == some googleID)

/-- Errors of the `INSERT` behind `CreateOAuthUser`. -/
inductive CreateErr
  | duplicateKey
deriving DecidableEq, Repr

/-- `CreateOAuthUser` (part_003 lines 65-82):
`INSERT INTO users (username, email, google_id, provider, avatar_url,
status) VALUES ($1, $2, $3, 'google', $4, 'online') RETURNING ...`.
The insert violates a unique constraint (duplicate key) when a row with
the same `username`, `email` or `google_id` already exists; the function
returns any such error unchanged — it does not retry or fall back to a
lookup.  On success it returns the new row and the extended table. -/
def CreateOAuthUser (db : List User) (email username googleID avatarURL : String) :
    Except CreateErr (User × List User) :=
  if db.any (fun u =>
      u.google_id == some googleID || u.email == email || u.username == username) then
    .error .duplicateKey
  else
    let u : User :=
      { id := nextId db, username := username, email := email
        password_hash := none, google_id := some googleID, provider := "google"
        avatar_url := some avatarURL, status := "online" }
    .ok (u, db ++ [u])

/-! ## OAuth callback handler (`GoogleCallback`, handlers/auth.go lines 180-262) -/

/-- `GoogleUserInfo` (handlers/auth.go lines 71-76): the profile returned
by the provider's userinfo endpoint. -/
structure GoogleUserInfo where
  id : String
  email : String
  name : String
  picture : String
deriving DecidableEq, Repr

/-- External collaborators and fault injection for one callback request.
`exchangeRes` is `oauthConfig.Exchange` (code → access token, `none` =
provider failure); `userInfoRes` is `getUserInfo` (access token →
profile); `lookupFails` injects a non-`ErrNoRows` database error on the
`SELECT`; `signingFails` makes `generateJWT`'s `SignedString` fail;
`concurrentInserts` are rows committed by other requests between this
handler's `SELECT` and its `INSERT` (empty when the request runs alone). -/
structure OAuthEnv where
  exchangeRes : String → Option String
  userInfoRes : String → Option GoogleUserInfo
  lookupFails : Bool
  signingFails : Bool
  concurrentInserts : List User

/-- HTTP outcome of the callback handler. -/
inductive HTTPResponse
  | badRequest (msg : String)
  | internalError (msg : String)
  | redirect (token : SignedToken)
deriving DecidableEq, Repr

/-- Count of calls the handler made to each external collaborator. -/
structure NetTrace where
  exchangeCalls : Nat := 0
  userInfoCalls : Nat := 0
  lookupCalls : Nat := 0
  insertCalls : Nat := 0
deriving DecidableEq, Repr

/-- The callback request: `oauth_state` cookie (`none` models
`http.ErrNoCookie` from `r.Cookie`), and the `state` / `code` query
parameters (`none` = absent; `Query().Get` yields "" for those). -/
structure CallbackRequest where
  stateCookie : Option String
  queryState : Option String
  queryCode : Option String
deriving DecidableEq, Repr

/-- Everything observable about one callback request: the HTTP response,
the storage state afterwards, the collaborator-call trace, and whether the
handler overwrote the `oauth_state` cookie with a past expiry. -/
structure CallbackResult where
  resp : HTTPResponse
  db : List User
  trace : NetTrace
  clearedStateCookie : Bool
deriving DecidableEq, Repr

/-- The state check of handlers/auth.go lines 185-186:
`err != nil || stateCookie.Value != r.URL.Query().Get("state")`. -/
def stateCheckFails (cookie qstate : Option String) : Bool :=
  match cookie with
  | none => true
  | some cv => cv != qstate.getD ""

/-- `GoogleCallback` (handlers/auth.go lines 180-262), step by step:
1. lines 185-191: state check; on failure respond 400 "Invalid state
   parameter" and return (the cookie-clearing `SetCookie` of step 2 is
   not reached);
2. lines 194-199: overwrite the `oauth_state` cookie with a past expiry;
3. lines 203-215: require a `code` query parameter (400 otherwise), then
   exchange it (500 on failure);
4. lines 218-223: fetch the profile (500 on failure);
5. lines 227-247: look up the user by Google id; `ErrNoRows` → insert via
   `CreateOAuthUser` (any insert error → 500 "Failed to create user");
   other lookup error → 500 "Database error";
6. lines 250-255: sign the JWT (500 on failure);
7. lines 259-261: redirect to the frontend carrying the token. -/
def GoogleCallback (env : OAuthEnv) (secret : String) (now : Int)
    (db : List User) (r : CallbackRequest) : CallbackResult :=
  if stateCheckFails r.stateCookie r.queryState then
    { resp := .badRequest "Invalid state parameter", db := db, trace := {}
      clearedStateCookie := false }
  else
    if r.queryCode.getD "" = "" then
      { resp := .badRequest "No authorization code", db := db, trace := {}
        clearedStateCookie := true }
    else
      match env.exchangeRes (r.queryCode.getD "") with
      | none =>
        { resp := .internalError "Failed to exchange token", db := db
          trace := { exchangeCalls := 1 }, clearedStateCookie := true }
      | some accessToken =>
        match env.userInfoRes accessToken with
        | none =>
          { resp := .internalError "Failed to get user info", db := db
            trace := { exchangeCalls := 1, userInfoCalls := 1 }
            clearedStateCookie := true }
        | some info =>
          if env.lookupFails then
            { resp := .internalError "Database error", db := db
              trace := { exchangeCalls := 1, userInfoCalls := 1, lookupCalls := 1 }
              clearedStateCookie := true }
          else
            match GetUserByGoogleID db info.id with
            | some user =>
              if env.signingFails then
                { resp := .internalError "Failed to generate token", db := db
                  trace := { exchangeCalls := 1, userInfoCalls := 1, lookupCalls := 1 }
                  clearedStateCookie := true }
              else
                { resp := .redirect (generateJWT secret user now), db := db
                  trace := { exchangeCalls := 1, userInfoCalls := 1, lookupCalls := 1 }
                  clearedStateCookie := true }
            | none =>
              match CreateOAuthUser (db ++ env.concurrentInserts)
                  info.email info.name info.id info.picture with
              | .error _ =>
                { resp := .internalError "Failed to create user"
                  db := db ++ env.concurrentInserts
                  trace := { exchangeCalls := 1, userInfoCalls := 1
                             lookupCalls := 1, insertCalls := 1 }
                  clearedStateCookie := true }
              | .ok (user, db') =>
                if env.signingFails then
                  { resp := .internalError "Failed to generate token", db := db'
                    trace := { exchangeCalls := 1, userInfoCalls := 1
                               lookupCalls := 1, insertCalls := 1 }
                    clearedStateCookie := true }
                else
                  { resp := .redirect (generateJWT secret user now), db := db'
                    trace := { exchangeCalls := 1, userInfoCalls := 1
                               lookupCalls := 1, insertCalls := 1 }
                    clearedStateCookie := true }

/-! ## Spec-side contract (for comparison against the code) -/

/-- The state-verification contract in the words of the spec (§4.1):
succeeds iff both the cookie value and the callback value are present and
byte-equal.  Compared against the code's `stateCheckFails`. -/
def stateVerifySpec (cookie qstate : Option String) : Prop :=
  ∃ v, cookie = some v ∧ qstate = some v

/-! ## Concrete fixtures used by counterexamples and witnesses -/

/-- A quiescent environment: provider calls fail, storage and signing
behave, no concurrent requests. -/
def env0 : OAuthEnv :=
  { exchangeRes := fun _ => none, userInfoRes := fun _ => none
    lookupFails := false, signingFails := false, concurrentInserts := [] }

/-- Profile returned by the provider in the concrete scenarios. -/
def info4 : GoogleUserInfo :=
  { id := "g1", email := "e@x", name := "n", picture := "p" }

/-- The row `CreateOAuthUser` builds for `info4` on an empty table; also
the account a concurrent request created in the race scenario. -/
def raceUser : User :=
  { id := 1, username := "n", email := "e@x", password_hash := none
    google_id := some "g1", provider := "google", avatar_url := some "p"
    status := "online" }

/-- Environment for the create-or-lookup race: provider calls succeed for
code "authcode", and `raceUser` was committed by another request between
this handler's lookup and its insert. -/
def env4 : OAuthEnv :=
  { exchangeRes := fun c => if c = "authcode" then some "tok" else none
    userInfoRes := fun t => if t = "tok" then some info4 else none
    lookupFails := false, signingFails := false, concurrentInserts := [raceUser] }

/-- A callback request with matching state and a valid code. -/
def req4 : CallbackRequest :=
  { stateCookie := some "st", queryState := some "st", queryCode := some "authcode" }

/-- Environment for the signing-failure scenario: provider calls succeed,
the insert succeeds, signing fails, no concurrency. -/
def env10 : OAuthEnv :=
  { exchangeRes := fun c => if c = "authcode" then some "tok" else none
    userInfoRes := fun t => if t = "tok" then some info4 else none
    lookupFails := false, signingFails := true, concurrentInserts := [] }

/-- User fixture for the round-trip witness. -/
def user5 : User :=
  { id := 7, username := "u5", email := "e5", password_hash := none
    google_id := some "g5", provider := "google", avatar_url := none
    status := "online" }

/-- Serialized-token stand-in (13 ASCII bytes). -/
def s5 : String := "0123456789abc"

/-- Decoder recognizing exactly the serialized form `s5` of the issued
token. -/
def decode5 : String → Option SignedToken :=
  fun x => if x = s5 then some (generateJWT "sec" user5 0) else none

/-- Claim set used by several witnesses: expires at 100, issued at 0. -/
def claims6 : UserClaims :=
  { user_id := 1, email := "e6", username := "u6", exp := 100, iat := 0 }

/-- Token over `claims6`, HS256 under secret "k". -/
def tok6 : SignedToken := signToken Alg.HS256 "k" claims6

/-- Serialized-token stand-in for `tok6` (13 ASCII bytes). -/
def s6 : String := "tok6tok6tok6t"

/-- Decoder recognizing exactly `s6`. -/
def decode6 : String → Option SignedToken :=
  fun x => if x = s6 then some tok6 else none

/-! ## Helper lemmas -/

theorem strData_append (a b : String) : (a ++ b).data = a.data ++ b.data := by
  cases a
  cases b
  rfl

theorem goByteLen_append (a b : String) :
    goByteLen (a ++ b) = goByteLen a + goByteLen b := by
  simp [goByteLen, strData_append]

theorem goByteLen_bearer : goByteLen "Bearer " = 7 := by
  decide

theorem bearer_append_ne_empty (s : String) : "Bearer " ++ s ≠ "" := by
  intro h
  have hd := congrArg String.data h
  rw [strData_append] at hd
  simp [String.data] at hd

theorem ne_bearer_append (s : String) : s ≠ "Bearer " ++ s := by
  intro h
  have hd := congrArg (fun t => t.data.length) h
  simp only [strData_append, List.length_append, List.length_cons,
    List.length_nil] at hd
  omega

theorem goTrimPrefix_bearer_append (s : String) :
    goTrimPrefix ("Bearer " ++ s) "Bearer " = s := by
  obtain ⟨l⟩ := s
  have h : ("Bearer " ++ String.mk l).data = "Bearer ".data ++ l := strData_append _ _
  simp [goTrimPrefix, h, List.take_left, List.drop_left]

/-- Unfolding of the middleware on a well-formed `Bearer` header whose
token part is at least 13 bytes (every serialized JWT is far longer). -/
theorem JWTMiddleware_bearer (decode : String → Option SignedToken)
    (secret : String) (now : Int) (s : String) (h13 : 13 ≤ goByteLen s) :
    JWTMiddleware decode secret now ("Bearer " ++ s) =
      match decode s with
      | none => .passed none
      | some tok =>
        match verifyToken secret now tok with
        | none => .passed none
        | some claims => .passed (some claims) := by
  unfold JWTMiddleware
  rw [if_neg (bearer_append_ne_empty s)]
  have hb : ¬ goByteLen ("Bearer " ++ s) < 20 := by
    rw [goByteLen_append, goByteLen_bearer]
    omega
  rw [if_neg hb]
  simp only [goTrimPrefix_bearer_append]
  rw [if_neg (ne_bearer_append s)]

/-- Characterization of successful token validation. -/
theorem verifyToken_eq_some_iff (secret : String) (now : Int)
    (tok : SignedToken) (c : UserClaims) :
    verifyToken secret now tok = some c ↔
      tok.alg.isHMAC = true ∧
      tok.sig = { alg := tok.alg, key := secret, payload := tok.claims } ∧
      now < tok.claims.exp ∧ c = tok.claims := by
  unfold verifyToken
  split_ifs with h1 h2 h3
  · simp_all
  · simp_all
  · simp_all
  · simp only [Option.some.injEq]
    constructor
    · intro h
      subst h
      refine ⟨?_, not_not.mp h2, by omega, rfl⟩
      simpa using h1
    · rintro ⟨-, -, -, rfl⟩
      rfl

/-- After a successful state check the handler always overwrites the state
cookie with a past expiry, and its response is never the CSRF 400. -/
theorem GoogleCallback_state_ok (env : OAuthEnv) (secret : String) (now : Int)
    (db : List User) (r : CallbackRequest)
    (h : stateCheckFails r.stateCookie r.queryState = false) :
    (GoogleCallback env secret now db r).clearedStateCookie = true ∧
    (GoogleCallback env secret now db r).resp ≠ .badRequest "Invalid state parameter" := by
  unfold GoogleCallback
  rw [if_neg (by simp [h])]
  constructor
  · repeat' split
    all_goals rfl
  · repeat' split
    all_goals simp

/-- A created row is a member of the resulting table. -/
theorem CreateOAuthUser_ok_mem (db : List User)
    (email username googleID avatarURL : String) (u : User) (db' : List User)
    (h : CreateOAuthUser db email username googleID avatarURL = .ok (u, db')) :
    u ∈ db' ∧ db' = db ++ [u] := by
  unfold CreateOAuthUser at h
  split_ifs at h
  injection h with h
  injection h with h1 h2
  subst h1
  subst h2
  exact ⟨List.mem_append_right _ (List.mem_singleton.mpr rfl), rfl⟩

/-- When the middleware attaches an identity, that identity came out of a
successful `verifyToken` run on the decoded bearer token. -/
theorem JWTMiddleware_attached_verified (decode : String → Option SignedToken)
    (secret : String) (now : Int) (hdr : String) (c : UserClaims)
    (h : JWTMiddleware decode secret now hdr = .passed (some c)) :
    ∃ tok, decode (goTrimPrefix hdr "Bearer ") = some tok ∧
      verifyToken secret now tok = some c := by
  unfold JWTMiddleware at h
  split_ifs at h with h1 h2 h3
  · simp at h
  · simp at h
  · rcases hd : decode (goTrimPrefix hdr "Bearer ") with _ | tok
    · rw [hd] at h
      simp at h
    · rw [hd] at h
      refine ⟨tok, rfl, ?_⟩
      rcases hv : verifyToken secret now tok with _ | cl
      · simp [hv] at h
      · simp [hv] at h
        rw [h]

/-! ## Claim theorems -/

/-- C1: the claim says `JWTMiddleware` invokes the wrapped handler exactly
once on every request and never fails.  The code violates this: for any
non-empty Authorization header shorter than 20 bytes (here "abc"), the
debug-log expression `authHeader[:20]` panics, so the handler is never
invoked and the request fails.  This contradicts the middleware's own
documentation ("requests continue even without valid tokens"). -/
theorem C1_short_header_panics (decode : String → Option SignedToken)
    (secret : String) (now : Int) :
    JWTMiddleware decode secret now "abc" = .panicked := by
  rfl

/-- C4: the claim says a duplicate-key failure on first-time account
creation is retried as a lookup and never surfaced to the user.  The code
violates this: when another request committed the same external id between
this handler's lookup and its insert, `CreateOAuthUser` returns the
duplicate-key error unchanged and `GoogleCallback` answers
500 "Failed to create user".  (The storage half of the claim does hold:
the table still contains exactly one row for the external id.) -/
theorem C4_duplicate_key_surfaced :
    (GoogleCallback env4 "secret" 0 [] req4).resp = .internalError "Failed to create user" ∧
    (GoogleCallback env4 "secret" 0 [] req4).trace.insertCalls = 1 ∧
    ((GoogleCallback env4 "secret" 0 [] req4).db.filter
      (fun u => u.google_id == some "g1")).length = 1 ∧
    CreateOAuthUser [raceUser] "e@x" "n" "g1" "p" = .error .duplicateKey := by
  exact ⟨rfl, rfl, rfl, rfl⟩

/-- C8: a callback whose state query parameter differs from the state
cookie gets a 400 "Invalid state parameter" and nothing else happens: no
token exchange, no profile fetch, no account lookup or insert, and the
storage state is returned unchanged. -/
theorem C8_tampered_state_stops_flow (env : OAuthEnv) (secret : String)
    (now : Int) (db : List User) (cv qv : String) (qc : Option String)
    (h : cv ≠ qv) :
    GoogleCallback env secret now db
      { stateCookie := some cv, queryState := some qv, queryCode := qc } =
      { resp := .badRequest "Invalid state parameter", db := db, trace := {}
        clearedStateCookie := false } := by
  have hs : stateCheckFails (some cv) (some qv) = true := by
    simp [stateCheckFails]
    exact h
  simp [GoogleCallback, hs]

/-- C8 witness: tampered state "b" against cookie "a". -/
theorem C8_witness :
    GoogleCallback env0 "secret" 0 []
      { stateCookie := some "a", queryState := some "b", queryCode := none } =
      { resp := .badRequest "Invalid state parameter", db := [], trace := {}
        clearedStateCookie := false } :=
  C8_tampered_state_stops_flow env0 "secret" 0 [] "a" "b" none (by decide)

/-- C2 counterexample: the claim requires verification to fail whenever
either value is missing.  With a present-but-empty state cookie and an
absent `state` query parameter, the code's check succeeds (Go's
`Query().Get` returns "" for an absent parameter) and the handler proceeds
past state verification to the code check, refuting the claim. -/
theorem C2_counterexample :
    stateCheckFails (some "") none = false ∧
    ¬ stateVerifySpec (some "") none ∧
    (GoogleCallback env0 "secret" 0 []
      { stateCookie := some "", queryState := none, queryCode := none }).resp
      = .badRequest "No authorization code" := by
  refine ⟨rfl, ?_, rfl⟩
  rintro ⟨v, -, hq⟩
  exact Option.noConfusion hq

/-- C2 (amended): the callback responds 400 "Invalid state parameter"
exactly when the code's state check fails, and that check succeeds exactly
when the state cookie is present and its value byte-equals the `state`
query value read with absent-as-empty-string semantics. -/
theorem C2_state_verification (env : OAuthEnv) (secret : String) (now : Int)
    (db : List User) (r : CallbackRequest) :
    ((GoogleCallback env secret now db r).resp = .badRequest "Invalid state parameter" ↔
      stateCheckFails r.stateCookie r.queryState = true) ∧
    (stateCheckFails r.stateCookie r.queryState = false ↔
      ∃ cv, r.stateCookie = some cv ∧ cv = r.queryState.getD "") := by
  constructor
  · constructor
    · intro hr
      by_contra hb
      have hf : stateCheckFails r.stateCookie r.queryState = false := by
        simpa using hb
      exact (GoogleCallback_state_ok env secret now db r hf).2 hr
    · intro ht
      simp [GoogleCallback, ht]
  · rcases hc : r.stateCookie with _ | cv
    · simp [stateCheckFails]
    · simp [stateCheckFails, bne_eq_false_iff_eq]

/-- C2 witness: matching pair ("a", "a") verifies successfully. -/
theorem C2_witness : stateCheckFails (some "a") (some "a") = false :=
  (C2_state_verification env0 "s" 0 []
    { stateCookie := some "a", queryState := some "a", queryCode := none }).2.mpr
    ⟨"a", rfl, rfl⟩

/-- C3 counterexample: the claim says every callback carrying a state
cookie has that cookie invalidated after the verification attempt, success
or failure.  On a mismatch ("a" vs "b") the handler returns 400 before
reaching the cookie-clearing `SetCookie`, so the cookie is not cleared. -/
theorem C3_counterexample :
    (some "a" : Option String).isSome = true ∧
    (GoogleCallback env0 "secret" 0 []
      { stateCookie := some "a", queryState := some "b", queryCode := none }).resp
      = .badRequest "Invalid state parameter" ∧
    (GoogleCallback env0 "secret" 0 []
      { stateCookie := some "a", queryState := some "b", queryCode := none
        }).clearedStateCookie = false := by
  exact ⟨rfl, rfl, rfl⟩

/-- C3 (amended): the handler overwrites the state cookie with a past
expiry iff state verification succeeds; on CsrfMismatch the 400 response
leaves the cookie untouched. -/
theorem C3_cleared_iff_state_ok (env : OAuthEnv) (secret : String) (now : Int)
    (db : List User) (r : CallbackRequest) :
    (GoogleCallback env secret now db r).clearedStateCookie = true ↔
      stateCheckFails r.stateCookie r.queryState = false := by
  constructor
  · intro hcl
    by_contra hb
    have ht : stateCheckFails r.stateCookie r.queryState = true := by
      simpa using hb
    simp [GoogleCallback, ht] at hcl
  · intro hf
    exact (GoogleCallback_state_ok env secret now db r hf).1

/-- C3 witness: on a matching pair the cookie is cleared. -/
theorem C3_witness :
    (GoogleCallback env0 "s" 0 []
      { stateCookie := some "a", queryState := some "a", queryCode := none
        }).clearedStateCookie = true :=
  (C3_cleared_iff_state_ok env0 "s" 0 []
    { stateCookie := some "a", queryState := some "a", queryCode := none }).mpr rfl

/-- C5: a credential issued by `generateJWT` and checked by the middleware
with the same secret before its expiry is accepted, and the attached
identity carries the account's id, email and username (with the issued
`exp`/`iat`).  `s` is the serialized form of the token; any real JWT is
far longer than the 13 bytes required to clear the logging slice. -/
theorem C5_issue_verify_roundtrip (decode : String → Option SignedToken)
    (secret : String) (user : User) (now t : Int) (s : String)
    (h13 : 13 ≤ goByteLen s)
    (hdec : decode s = some (generateJWT secret user now))
    (ht : t < now + 24 * 3600) :
    JWTMiddleware decode secret t ("Bearer " ++ s) =
      .passed (some { user_id := user.id, email := user.email
                      username := user.username, exp := now + 24 * 3600
                      iat := now }) := by
  rw [JWTMiddleware_bearer decode secret t s h13, hdec]
  have hv : verifyToken secret t (generateJWT secret user now) =
      some { user_id := user.id, email := user.email, username := user.username
             exp := now + 24 * 3600, iat := now } := by
    rw [verifyToken_eq_some_iff]
    exact ⟨rfl, rfl, ht, rfl⟩
  simp [hv]

/-- C5 witness: concrete issue-then-verify round trip at time 0. -/
theorem C5_witness :
    JWTMiddleware decode5 "sec" 0 ("Bearer " ++ s5) =
      .passed (some { user_id := user5.id, email := user5.email
                      username := user5.username, exp := 0 + 24 * 3600
                      iat := 0 }) :=
  C5_issue_verify_roundtrip decode5 "sec" user5 0 0 s5 (by decide)
    (by simp [decode5]) (by decide)

/-- C6: a credential whose `exp` is not in the future is rejected by the
verifier regardless of its signature, and consequently any identity the
middleware attaches to a request has an `exp` strictly in the future. -/
theorem C6_expired_always_rejected :
    (∀ (secret : String) (now : Int) (tok : SignedToken),
      tok.claims.exp ≤ now → verifyToken secret now tok = none) ∧
    (∀ (decode : String → Option SignedToken) (secret : String) (now : Int)
      (hdr : String) (c : UserClaims),
      JWTMiddleware decode secret now hdr = .passed (some c) → now < c.exp) := by
  constructor
  · intro secret now tok hexp
    unfold verifyToken
    split_ifs <;> rfl
  · intro decode secret now hdr c h
    obtain ⟨tok, -, hv⟩ := JWTMiddleware_attached_verified decode secret now hdr c h
    obtain ⟨-, -, hlt, hc⟩ := (verifyToken_eq_some_iff secret now tok c).mp hv
    rw [hc]
    exact hlt

/-- C6 witness: `tok6` (exp 100) is rejected at time 200 although its
signature is valid for "k", and the identity attached at time 5 has its
expiry in the future. -/
theorem C6_witness :
    verifyToken "k" 200 tok6 = none ∧ (5 : Int) < claims6.exp :=
  ⟨C6_expired_always_rejected.1 "k" 200 tok6 (by decide),
   C6_expired_always_rejected.2 decode6 "k" 5 ("Bearer " ++ s6) claims6 (by decide)⟩

/-- C7: a token signed under secret `k1` is rejected by a verifier
configured with a different secret `k2`, whatever the algorithm and claim
set, and the middleware attaches no identity to such a request. -/
theorem C7_wrong_secret_rejected (k1 k2 : String) (alg : Alg)
    (claims : UserClaims) (now : Int) (hne : k1 ≠ k2) :
    verifyToken k2 now (signToken alg k1 claims) = none ∧
    ∀ (decode : String → Option SignedToken) (s : String),
      13 ≤ goByteLen s → decode s = some (signToken alg k1 claims) →
      JWTMiddleware decode k2 now ("Bearer " ++ s) = .passed none := by
  have hv : verifyToken k2 now (signToken alg k1 claims) = none := by
    cases hA : alg.isHMAC
    · simp [verifyToken, signToken, hA]
    · have hs : ({ alg := alg, key := k1, payload := claims } : MacSig) ≠
          { alg := alg, key := k2, payload := claims } := by
        intro he
        exact hne (congrArg MacSig.key he)
      simp [verifyToken, signToken, hA, hs]
  refine ⟨hv, ?_⟩
  intro decode s h13 hdec
  rw [JWTMiddleware_bearer decode k2 now s h13, hdec]
  simp [hv]

/-- C7 witness: token under "k1", verifier under "k2". -/
theorem C7_witness :
    verifyToken "k2" 0 (signToken Alg.HS256 "k1" claims6) = none ∧
    JWTMiddleware (fun x => if x = s6 then some (signToken Alg.HS256 "k1" claims6) else none)
      "k2" 0 ("Bearer " ++ s6) = .passed none := by
  obtain ⟨h1, h2⟩ := C7_wrong_secret_rejected "k1" "k2" Alg.HS256 claims6 0 (by decide)
  exact ⟨h1, h2 _ s6 (by decide) (by simp)⟩

/-- C9: the verifier's algorithm check admits the whole HMAC family — an
unexpired token signed under the service secret with HS256, HS384 or
HS512 is accepted, not only the issuer's HS256 — while any token whose
header names a non-HMAC method is rejected outright by the key function. -/
theorem C9_hmac_family_accepted (secret : String) (claims : UserClaims)
    (now : Int) (alg : Alg) :
    (alg.isHMAC = true → now < claims.exp →
      verifyToken secret now (signToken alg secret claims) = some claims) ∧
    (alg.isHMAC = false → ∀ tok : SignedToken, tok.alg = alg →
      verifyToken secret now tok = none) := by
  constructor
  · intro hA hexp
    rw [verifyToken_eq_some_iff]
    exact ⟨hA, rfl, hexp, rfl⟩
  · intro hA tok htok
    have hf : tok.alg.isHMAC = false := by
      rw [htok]
      exact hA
    simp [verifyToken, hf]

/-- C9 witness: HS384 under the right secret is accepted; RS256 is
rejected by the algorithm check. -/
theorem C9_witness :
    verifyToken "k" 5 (signToken Alg.HS384 "k" claims6) = some claims6 ∧
    verifyToken "k" 5 (signToken Alg.RS256 "k" claims6) = none :=
  ⟨(C9_hmac_family_accepted "k" claims6 5 Alg.HS384).1 rfl (by decide),
   (C9_hmac_family_accepted "k" claims6 5 Alg.RS256).2 rfl
     (signToken Alg.RS256 "k" claims6) rfl⟩

/-- C10: the callback is not atomic.  On a first-time login whose insert
succeeds and whose credential signing then fails, the handler answers
500 "Failed to generate token" but the freshly created account is still in
the resulting table — no rollback happens on the error path. -/
theorem C10_account_persists_when_signing_fails (env : OAuthEnv)
    (secret : String) (now : Int) (db : List User) (r : CallbackRequest)
    (accessToken : String) (info : GoogleUserInfo) (user : User)
    (db' : List User)
    (hstate : stateCheckFails r.stateCookie r.queryState = false)
    (hcode : r.queryCode.getD "" ≠ "")
    (hex : env.exchangeRes (r.queryCode.getD "") = some accessToken)
    (hui : env.userInfoRes accessToken = some info)
    (hlf : env.lookupFails = false)
    (hlook : GetUserByGoogleID db info.id = none)
    (hcreate : CreateOAuthUser (db ++ env.concurrentInserts)
      info.email info.name info.id info.picture = .ok (user, db'))
    (hsign : env.signingFails = true) :
    (GoogleCallback env secret now db r).resp
      = .internalError "Failed to generate token" ∧
    (GoogleCallback env secret now db r).db = db' ∧ user ∈ db' := by
  have hmem := (CreateOAuthUser_ok_mem _ _ _ _ _ _ _ hcreate).1
  have hrun : GoogleCallback env secret now db r =
      { resp := .internalError "Failed to generate token", db := db'
        trace := { exchangeCalls := 1, userInfoCalls := 1, lookupCalls := 1
                   insertCalls := 1 }
        clearedStateCookie := true } := by
    simp [GoogleCallback, hstate, hcode, hex, hui, hlf, hlook, hcreate, hsign]
  rw [hrun]
  exact ⟨rfl, rfl, hmem⟩

/-- C10 witness: concrete first-time login with failing signer; the
created account (`raceUser` is exactly the row `CreateOAuthUser` builds
for `info4` on an empty table) survives the 500. -/
theorem C10_witness :
    (GoogleCallback env10 "secret" 0 [] req4).resp
      = .internalError "Failed to generate token" ∧
    (GoogleCallback env10 "secret" 0 [] req4).db = [raceUser] ∧
    raceUser ∈ [raceUser] :=
  C10_account_persists_when_signing_fails env10 "secret" 0 [] req4 "tok"
    info4 raceUser [raceUser] (by decide) (by decide) (by simp [env10, req4])
    (by simp [env10]) rfl rfl rfl rfl

end DiscordClone
